import Mathlib

/-!
Verification of the shellfish dispatcher (src/shellfish.go).

The Go source is shallowly embedded: pure functions become Lean functions on
`List String` / `String`; the file system, stdin and the opaque collaborators
from the `cmd`, `env` and `version` packages (config parsing, mode registry,
backend activation) are modelled as explicit oracle parameters; Go byte-level
string slicing is modelled on the character list of a `String` (all strings
that the dispatcher compares against are ASCII, where the two views agree).
-/

namespace Shellfish

/-- GlobalConfig mirrors the fields of `cmd.GlobalConfig` that
src/shellfish.go uses.  The record itself is declared in the `cmd` package
(outside src/); the field list here is read off `configEqual`, `initHalos`,
`initCatalogs` and `main`.  `Threads` is the runtime-only field named in the
comment inside `configEqual` ("changing something like Threads shouldn't
flush the memoization buffer").  `HaloInfo` and `ParticleInfo` are opaque
sub-records that are only ever passed through to backends; they are modelled
as uninterpreted strings. -/
structure GlobalConfig where
  Version : String
  SnapshotFormat : String
  SnapshotType : String
  HaloDir : String
  HaloType : String
  TreeDir : String
  TreeType : String
  MemoDir : String
  BlockMins : List Int
  BlockMaxes : List Int
  SnapMin : Int
  SnapMax : Int
  SnapshotFormatMeanings : List String
  HaloPositionUnits : String
  HaloMassUnits : String
  HaloValueColumns : List Int
  HaloValueNames : List String
  Endianness : String
  Threads : Int
  ValidateFormats : Bool
  HaloInfo : String
  ParticleInfo : String
  deriving DecidableEq

/-- isConfig embeds Go `isConfig`: `len(s) >= 7 && s[len(s)-7:] == ".config"`.
Go's byte slicing is modelled on the character list. -/
def isConfig (s : String) : Bool :=
  decide (7 ≤ s.length) && s.data.drop (s.length - 7) == ".config".data

/-- configNum embeds Go `configNum`: it scans the argument list from the end
backwards, counting tokens that satisfy `isConfig`, and stops at the first
token that does not (the `break`).  That is the length of the maximal
trailing run of config tokens. -/
def configNum (args : List String) : Nat :=
  (args.reverse.takeWhile fun s => isConfig s).length

/-- getFlags embeds Go `getFlags`: `args[1 : len(args)-1-configNum(args)]`.
A Go slice `args[1:k]` is `(args.drop 1).take (k-1)`.  (For every argument
list that reaches `getFlags` in `main` the bounds are in range, because
`args[1]` is a recognized mode name and hence not a `.config` token; Lean's
truncating `Nat` subtraction is only exercised in range here.) -/
def getFlags (args : List String) : List String :=
  (args.drop 1).take (args.length - 1 - configNum args - 1)

/-- argAt models Go's indexing `args[i]` (total here; every use in the
source is guarded so that the index is in range). -/
def argAt (args : List String) (i : Nat) : String :=
  args.getD i ""

/-- getGlobalConfig embeds Go `getGlobalConfig`.  `env` is the value of
`$SHELLFISH_GLOBAL_CONFIG` (`os.Getenv` returns `""` when the variable is
unset).  `read` is `(*cmd.GlobalConfig).ReadConfig`, an opaque collaborator
from the `cmd` package, passed as an oracle: given a file name it yields the
parsed configuration or a load error. -/
def getGlobalConfig (env : String) (read : String → Except String GlobalConfig)
    (args : List String) : Except String (String × GlobalConfig) :=
  if env ≠ "" then
    if 1 < configNum args then
      Except.error ("$SHELLFISH_GLOBAL_CONFIG has been set, so you may only " ++
        "pass a single config file as a parameter.")
    else
      match read env with
      | Except.error e => Except.error e
      | Except.ok c => Except.ok (env, c)
  else if configNum args = 0 then
    Except.error "No config files provided in command line arguments."
  else if configNum args = 1 then
    match read (argAt args (args.length - 1)) with
    | Except.error e => Except.error e
    | Except.ok c => Except.ok (argAt args (args.length - 1), c)
  else if configNum args = 2 then
    match read (argAt args (args.length - 2)) with
    | Except.error e => Except.error e
    | Except.ok c => Except.ok (argAt args (args.length - 2), c)
  else
    Except.error "Passed too many config files as arguments."

/-- getConfig embeds Go `getConfig`: the mode-specific config file is the last
argument when either the environment override is set and exactly one trailing
config token is present, or the override is unset and exactly two are
present; otherwise the empty name and `false` ("use defaults"). -/
def getConfig (env : String) (args : List String) : String × Bool :=
  if env ≠ "" ∧ configNum args = 1 then
    (argAt args (args.length - 1), true)
  else if env = "" ∧ configNum args = 2 then
    (argAt args (args.length - 1), true)
  else
    ("", false)

/-- sampleConfig is a concrete `GlobalConfig` used by the witness theorems. -/
def sampleConfig : GlobalConfig :=
  { Version := "1.0"
    SnapshotFormat := "snapdir_%03d/snapshot_%03d.%d"
    SnapshotType := "LGadget-2"
    HaloDir := "halos"
    HaloType := "Text"
    TreeDir := "trees"
    TreeType := "consistent-trees"
    MemoDir := "md"
    BlockMins := [0]
    BlockMaxes := [7]
    SnapMin := 0
    SnapMax := 100
    SnapshotFormatMeanings := ["Snapshot", "Snapshot", "Block"]
    HaloPositionUnits := "Mpc/h"
    HaloMassUnits := "Msun/h"
    HaloValueColumns := [4]
    HaloValueNames := ["M200m"]
    Endianness := "LittleEndian"
    Threads := 1
    ValidateFormats := false
    HaloInfo := "haloInfo"
    ParticleInfo := "particleInfo" }

/-- FS models the file system as seen by the memoization guard: a map from
path to the raw text contents of the file there (`none` = no such file,
which is what the `os.Stat` error check in `checkMemoDir` tests for). -/
def FS : Type := String → Option String

/-- updateFS writes (creates or truncates, as `os.Create` does) the file at
path `p` with contents `c`. -/
def updateFS (fs : FS) (p c : String) : FS :=
  fun q => if q = p then some c else fs q

/-- copyFile embeds Go `copyFile`: opening a missing source fails; otherwise
the destination is created with the source's contents, verbatim. -/
def copyFile (fs : FS) (dst src : String) : Except String FS :=
  match fs src with
  | none => Except.error ("open " ++ src ++ ": no such file or directory")
  | some content => Except.ok (updateFS fs dst content)

/-- readConfigFS models `(*cmd.GlobalConfig).ReadConfig` on a path: reading
the file's raw contents from the file system and handing them to the `cmd`
package's (opaque, deterministic) key-value parser `parse`. -/
def readConfigFS (parse : String → Except String GlobalConfig) (fs : FS)
    (p : String) : Except String GlobalConfig :=
  match fs p with
  | none => Except.error ("open " ++ p ++ ": no such file or directory")
  | some content => parse content

/-- pathJoin models Go `path.Join` for the already-clean paths the guard
builds (`path.Join(memoDir, "memo.config")`). -/
def pathJoin (a b : String) : String := a ++ "/" ++ b

/-- int64sEqual embeds Go `int64sEqual`: equal lengths and equal elements at
every index. -/
def int64sEqual (xs ys : List Int) : Bool :=
  xs.length == ys.length && (xs.zip ys).all fun p => p.1 == p.2

/-- stringsEqual embeds Go `stringsEqual`: equal lengths and equal elements
at every index. -/
def stringsEqual (xs ys : List String) : Bool :=
  xs.length == ys.length && (xs.zip ys).all fun p => p.1 == p.2

/-- configEqual embeds Go `configEqual`: equality on the hand-picked,
cache-relevant field subset.  The comparison list is copied field by field
from the source — note that it does include `MemoDir` (the source comments
"(this is impossible)" on that line) and that it omits `TreeType`,
`ValidateFormats` and runtime-only fields such as `Threads`. -/
def configEqual (m c : GlobalConfig) : Bool :=
  c.Version == m.Version &&
  c.SnapshotFormat == m.SnapshotFormat &&
  c.SnapshotType == m.SnapshotType &&
  c.HaloDir == m.HaloDir &&
  c.HaloType == m.HaloType &&
  c.TreeDir == m.TreeDir &&
  c.MemoDir == m.MemoDir &&
  int64sEqual c.BlockMins m.BlockMins &&
  int64sEqual c.BlockMaxes m.BlockMaxes &&
  c.SnapMin == m.SnapMin &&
  c.SnapMax == m.SnapMax &&
  stringsEqual c.SnapshotFormatMeanings m.SnapshotFormatMeanings &&
  c.HaloPositionUnits == m.HaloPositionUnits &&
  c.HaloMassUnits == m.HaloMassUnits &&
  int64sEqual c.HaloValueColumns m.HaloValueColumns &&
  stringsEqual c.HaloValueNames m.HaloValueNames &&
  c.Endianness == m.Endianness

/-- memoMismatchMsg is the error text `checkMemoDir` produces on a
cache-relevant mismatch, naming the current config file, the memoization
directory and the snapshot file inside it (sic: "varables", as in the
source). -/
def memoMismatchMsg (configFile memoDir memoConfigFile : String) : String :=
  "The variables in the config file \x27" ++ configFile ++
    "\x27 do not match the varables used when creating the MemoDir, \x27" ++
    memoDir ++ ".\x27 These variables can be compared by inspecting \x27" ++
    configFile ++ "\x27 and \x27" ++ memoConfigFile ++ "\x27"

/-- checkMemoDir embeds Go `checkMemoDir`: if the snapshot file
`memoDir/memo.config` does not exist, seed it with a verbatim copy of the
current config file; otherwise parse both files and require `configEqual`,
failing with `memoMismatchMsg` on a mismatch.  The returned `FS` is the file
system after the call (unchanged except for first-use seeding). -/
def checkMemoDir (parse : String → Except String GlobalConfig) (fs : FS)
    (memoDir configFile : String) : Except String FS :=
  if (fs (pathJoin memoDir "memo.config")).isSome = false then
    copyFile fs (pathJoin memoDir "memo.config") configFile
  else
    match readConfigFS parse fs configFile with
    | Except.error e => Except.error e
    | Except.ok config =>
      match readConfigFS parse fs (pathJoin memoDir "memo.config") with
      | Except.error e => Except.error e
      | Except.ok memoConfig =>
        if (configEqual config memoConfig) = false then
          Except.error (memoMismatchMsg configFile memoDir
            (pathJoin memoDir "memo.config"))
        else
          Except.ok fs

/-- cfgOtherHalo differs from `sampleConfig` only in the (cache-relevant)
halo backend type. -/
def cfgOtherHalo : GlobalConfig := { sampleConfig with HaloType := "Rockstar" }

/-- cfgOtherThreads differs from `sampleConfig` only in the runtime-only
thread count. -/
def cfgOtherThreads : GlobalConfig := { sampleConfig with Threads := 8 }

/-- parseW is a concrete parser oracle for the witness theorems: three known
file bodies, everything else a parse error. -/
def parseW : String → Except String GlobalConfig := fun s =>
  if s = "c0" then Except.ok sampleConfig
  else if s = "cH" then Except.ok cfgOtherHalo
  else if s = "cT" then Except.ok cfgOtherThreads
  else Except.error "parse error"

/-- fsSeeded is a concrete file system whose memoization directory `md` has
already been seeded with the body `c0` (parsing to `sampleConfig`). -/
def fsSeeded : FS := fun p =>
  if p = "md/memo.config" then some "c0"
  else if p = "b.config" then some "cH"
  else if p = "t.config" then some "cT"
  else none

/-- fsFresh is a concrete file system with an empty memoization directory and
one global config file. -/
def fsFresh : FS := fun p =>
  if p = "g.config" then some "c0" else none

/-- GoOutcome is the outcome of a Go function that may either return a value
or panic (a Go panic unwinds the process, which then terminates with a
status other than the `os.Exit` codes — in particular not with status 1). -/
inductive GoOutcome (α : Type) where
  | ret : α → GoOutcome α
  | panicked : String → GoOutcome α
  deriving DecidableEq

/-- BackendOracle bundles the opaque backend activators of the `env` package
(`InitGotetra`, `InitLGadget2`, `InitARTIO` on the particle side,
`InitTextHalo` on the halo side).  Each is specified only as "parameters in,
success or typed failure out". -/
structure BackendOracle where
  initGotetra : String → Bool → Except String Unit
  initLGadget2 : String → Bool → Except String Unit
  initArtio : String → Bool → Except String Unit
  initTextHalo : String → Except String Unit

/-- initCatalogs embeds Go `initCatalogs`: a three-way switch on the snapshot
backend type, activating the matching reader; any other value falls off the
switch into `panic("Impossible.")`. -/
def initCatalogs (o : BackendOracle) (g : GlobalConfig) :
    GoOutcome (Except String Unit) :=
  if g.SnapshotType = "gotetra" then
    GoOutcome.ret (o.initGotetra g.ParticleInfo g.ValidateFormats)
  else if g.SnapshotType = "LGadget-2" then
    GoOutcome.ret (o.initLGadget2 g.ParticleInfo g.ValidateFormats)
  else if g.SnapshotType = "ARTIO" then
    GoOutcome.ret (o.initArtio g.ParticleInfo g.ValidateFormats)
  else
    GoOutcome.panicked "Impossible."

/-- initHalos embeds Go `initHalos`: modes `shell`, `stats` and `prof` skip
halo initialization; otherwise a `nil` halo type is an error naming the mode;
a `Text` halo type returns the activation result of the Text halo backend —
the `return` statement there makes the tree-type compatibility check that
follows it in the source unreachable, so that check does not appear in the
function's value (claim C10 is about exactly this); any other halo type
reaches the tree-type test: a `nil` tree type is an error naming the mode and
everything else falls into `panic("Impossible")`. -/
def initHalos (o : BackendOracle) (mode : String) (g : GlobalConfig) :
    GoOutcome (Except String Unit) :=
  if mode = "shell" ∨ mode = "stats" ∨ mode = "prof" then
    GoOutcome.ret (Except.ok ())
  else if g.HaloType = "nil" then
    GoOutcome.ret (Except.error
      ("You may not use nil as a HaloType for the mode \x27" ++ mode ++ ".\x27\n"))
  else if g.HaloType = "Text" then
    GoOutcome.ret (o.initTextHalo g.HaloInfo)
  else if g.TreeType = "nil" then
    GoOutcome.ret (Except.error
      ("You may not use nil as a TreeType for the mode \x27" ++ mode ++ ".\x27\n"))
  else
    GoOutcome.panicked "Impossible"

/-- ModeOracle is a mode (stage) implementation as the dispatcher sees it:
`ReadConfig` on a config path (`""` = use defaults) and `Run` on flags,
global config, environment handle (its `MemoDir`) and input lines. -/
structure ModeOracle where
  readModeConfig : String → Except String Unit
  run : List String → GlobalConfig → String → List String →
    Except String (List String)

/-- Termination is how a `main` invocation ends: `os.Exit`/normal return
with a status code, or a Go panic. -/
inductive Termination where
  | exited : Nat → Termination
  | panicked : String → Termination
  deriving DecidableEq

/-- MainResult records the observable behaviour of one `main` invocation:
the lines printed to standard output, the messages written to standard
error, and how the process terminated. -/
structure MainResult where
  out : List String
  errOut : List String
  term : Termination
  deriving DecidableEq

/-- pipeModes is the fixed list of modes that read piped catalog input
(the `switch args[1]` in `main`; `id` is absent). -/
def pipeModes : List String := ["tree", "coord", "prof", "shell", "stats"]

/-- modeNamesKeys is the key set of `cmd.ModeNames`.  Modelled from the spec:
the map literal lives in the `cmd` package (outside src/); the spec's mode
registry and the source's own help text (`modeDescriptions`, and the
`cmd.ModeNames[...]` lookups in `helpStrings`) fix exactly these six tools. -/
def modeNamesKeys : List String := ["id", "tree", "coord", "prof", "shell", "stats"]

/-- splitNLAux models Go `strings.Split(text, "\n")` by structural recursion
over the character list (Go's `Split` on a 1-byte separator): `acc` is the
current line, reversed. -/
def splitNLAux : List Char → List Char → List String
  | [], acc => [String.mk acc.reverse]
  | ch :: cs, acc =>
    if ch = '\n' then String.mk acc.reverse :: splitNLAux cs []
    else splitNLAux cs (ch :: acc)

/-- stdinLines embeds Go `stdinLines` minus the `ReadAll` error case (which
`mainWithMode` handles where `main` does): split the raw text into lines and
strip one trailing empty line. -/
def stdinLines (text : String) : List String :=
  let lines := splitNLAux text.data []
  if lines.getLastD "" = "" then lines.dropLast else lines

/-- World is the ambient state a `main` invocation runs against: the
environment variable, the raw stdin read, the file system, the `cmd`
package's config parser, the mode registry's implementations, the backend
activators, and the opaque text constants of the help system. -/
structure World where
  env : String
  stdinRaw : Except String String
  fs : FS
  parse : String → Except String GlobalConfig
  modes : String → ModeOracle
  backends : BackendOracle
  modeDescriptionsText : String
  helpText : String → Option String
  sourceVersion : String

/-- errRun is the common fatal-error tail in `main`:
`log.Printf("Error running mode %s:\n%s\n", ...)` to standard error, then
`fmt.Println("Shellfish terminating.")`, then `os.Exit(1)`. -/
def errRun (mode msg : String) : MainResult :=
  { out := ["Shellfish terminating."]
    errOut := ["Error running mode " ++ mode ++ ":\n" ++ msg ++ "\n"]
    term := Termination.exited 1 }

/-- helpOutput models the `help` arm of `main`'s first switch: with no
target the mode overview, with one target the help string for it (or an
"I don\x27t recognize" note), with two targets a usage complaint; always
exiting 0. -/
def helpOutput (w : World) (args : List String) : List String :=
  if args.length - 2 = 0 then [w.modeDescriptionsText]
  else if args.length - 2 = 1 then
    match w.helpText (argAt args 2) with
    | none => ["I don\x27t recognize the help target \x27" ++ argAt args 2 ++ "\x27\n"]
    | some t => [t]
  else if args.length - 2 = 2 then
    ["The help mode can only take a single argument."]
  else []

/-- mainDispatch is the tail of `main` after the stdin handling: flag
extraction, mode/global config resolution, mode config parsing, memoization
guard, backend initialization and the mode's run, with every error funnelled
through `errRun`. -/
def mainDispatch (w : World) (args : List String) (a1 : String)
    (lines : List String) : MainResult :=
  match getGlobalConfig w.env (readConfigFS w.parse w.fs) args with
  | Except.error e => errRun a1 e
  | Except.ok (gName, gConfig) =>
    match (if (getConfig w.env args).2 then
        (w.modes a1).readModeConfig (getConfig w.env args).1
      else
        (w.modes a1).readModeConfig "") with
    | Except.error e => errRun a1 e
    | Except.ok _ =>
      match checkMemoDir w.parse w.fs gConfig.MemoDir gName with
      | Except.error e => errRun a1 e
      | Except.ok _ =>
        match initCatalogs w.backends gConfig with
        | GoOutcome.panicked m => { out := [], errOut := [], term := Termination.panicked m }
        | GoOutcome.ret (Except.error e) => errRun a1 e
        | GoOutcome.ret (Except.ok _) =>
          match initHalos w.backends a1 gConfig with
          | GoOutcome.panicked m => { out := [], errOut := [], term := Termination.panicked m }
          | GoOutcome.ret (Except.error e) => errRun a1 e
          | GoOutcome.ret (Except.ok _) =>
            match (w.modes a1).run (getFlags args) gConfig gConfig.MemoDir lines with
            | Except.error e => errRun a1 e
            | Except.ok outLines => { out := outLines, errOut := [], term := Termination.exited 0 }

/-- mainWithMode models the stdin-handling block of `main` for a recognized
mode `a1`: pipe modes read stdin to completion (an unreadable stdin is fatal
with the terminating notice), an empty input returns silently with status 0,
a single-line input whose first nine bytes are the failure marker
"Shellfish" is re-emitted verbatim and the process exits 1 without reaching
the dispatch tail; everything else dispatches. -/
def mainWithMode (w : World) (args : List String) (a1 : String) : MainResult :=
  if a1 ∈ pipeModes then
    match w.stdinRaw with
    | Except.error e =>
      { out := ["Shellfish terminating."]
        errOut := ["Error reading stdin: " ++ e ++ "."]
        term := Termination.exited 1 }
    | Except.ok raw =>
      if (stdinLines raw).length = 0 then
        { out := [], errOut := [], term := Termination.exited 0 }
      else if (stdinLines raw).length = 1 ∧
          9 ≤ ((stdinLines raw).getD 0 "").length ∧
          ((stdinLines raw).getD 0 "").data.take 9 = "Shellfish".data then
        { out := [(stdinLines raw).getD 0 ""], errOut := [], term := Termination.exited 1 }
      else
        mainDispatch w args a1 (stdinLines raw)
  else
    mainDispatch w args a1 []

/-- mainRun embeds Go `main`: the missing-mode complaint (note: no
terminating notice on this path), the `help`/`version`/`hello` arms, the
unknown-mode error, then `mainWithMode`. -/
def mainRun (w : World) (args : List String) : MainResult :=
  if args.length ≤ 1 then
    { out := []
      errOut := ["I was not supplied with a mode.\nFor help, type \x27./shellfish help\x27.\n"]
      term := Termination.exited 1 }
  else if argAt args 1 = "help" then
    { out := helpOutput w args, errOut := [], term := Termination.exited 0 }
  else if argAt args 1 = "version" then
    { out := ["Shellfish version " ++ w.sourceVersion], errOut := [], term := Termination.exited 0 }
  else if argAt args 1 = "hello" then
    { out := ["Hello back at you! Installation was successful."], errOut := [], term := Termination.exited 0 }
  else if argAt args 1 ∉ modeNamesKeys then
    { out := ["Shellfish terminating."]
      errOut := ["You passed me the mode \x27" ++ argAt args 1 ++
        "\x27, which I don\x27t recognize.\nFor help, type \x27./shellfish help\x27\n"]
      term := Termination.exited 1 }
  else
    mainWithMode w args (argAt args 1)

/-- markerShortCircuit holds when an invocation takes the failure-marker
short circuit in `mainWithMode`: a pipe mode, a readable stdin of exactly one
line whose first nine bytes are "Shellfish". -/
def markerShortCircuit (w : World) (args : List String) : Prop :=
  argAt args 1 ∈ pipeModes ∧
  ∃ raw, w.stdinRaw = Except.ok raw ∧
    (stdinLines raw).length = 1 ∧
    9 ≤ ((stdinLines raw).getD 0 "").length ∧
    ((stdinLines raw).getD 0 "").data.take 9 = "Shellfish".data

/-- trivialMode is a mode implementation whose operations always succeed. -/
def trivialMode : ModeOracle :=
  { readModeConfig := fun _ => Except.ok ()
    run := fun _ _ _ _ => Except.ok [] }

/-- trivialBackends is a backend bundle whose activators always succeed. -/
def trivialBackends : BackendOracle :=
  { initGotetra := fun _ _ => Except.ok ()
    initLGadget2 := fun _ _ => Except.ok ()
    initArtio := fun _ _ => Except.ok ()
    initTextHalo := fun _ => Except.ok () }

/-- trivialWorld is a concrete ambient state for closed counterexamples and
witnesses. -/
def trivialWorld : World :=
  { env := ""
    stdinRaw := Except.ok ""
    fs := fun _ => none
    parse := fun _ => Except.error "parse error"
    modes := fun _ => trivialMode
    backends := trivialBackends
    modeDescriptionsText := "modes"
    helpText := fun _ => none
    sourceVersion := "0.3.1" }

/-- cfgBadSnap is a configuration whose snapshot backend type is outside the
recognized set. -/
def cfgBadSnap : GlobalConfig := { sampleConfig with SnapshotType := "bogus", MemoDir := "m" }

/-- c2World is an ambient state under which `main` reaches backend
initialization with `cfgBadSnap`: the override names file `g`, whose body
`c` parses to `cfgBadSnap`; the memoization directory is fresh. -/
def c2World : World :=
  { trivialWorld with
    env := "g"
    fs := fun p => if p = "g" then some "c" else none
    parse := fun s => if s = "c" then Except.ok cfgBadSnap else Except.error "parse error" }

/-- cfgNilHalo is a configuration with the explicitly disabled halo backend
type. -/
def cfgNilHalo : GlobalConfig := { sampleConfig with HaloType := "nil" }

/-- c9World is an ambient state whose stdin is a single propagated
failure-marker line. -/
def c9World : World :=
  { trivialWorld with stdinRaw := Except.ok "Shellfish failed\n" }

end Shellfish

namespace Shellfish

/-- C3: with the environment override unset, resolution errors for zero
trailing config tokens, errors for three or more, takes the last token as the
global configuration when there is exactly one (and no mode config is used),
and takes the second-to-last as global and the last as mode config when there
are exactly two. -/
theorem c3_resolution_no_override (args : List String)
    (read : String → Except String GlobalConfig) :
    (configNum args = 0 →
      getGlobalConfig "" read args =
        Except.error "No config files provided in command line arguments.") ∧
    (3 ≤ configNum args →
      getGlobalConfig "" read args =
        Except.error "Passed too many config files as arguments.") ∧
    (∀ C : GlobalConfig, configNum args = 1 →
      read (argAt args (args.length - 1)) = Except.ok C →
      getGlobalConfig "" read args =
          Except.ok (argAt args (args.length - 1), C) ∧
        getConfig "" args = ("", false)) ∧
    (∀ C : GlobalConfig, configNum args = 2 →
      read (argAt args (args.length - 2)) = Except.ok C →
      getGlobalConfig "" read args =
          Except.ok (argAt args (args.length - 2), C) ∧
        getConfig "" args = (argAt args (args.length - 1), true)) := by
  refine ⟨fun h0 => ?_, fun h3 => ?_, fun C h1 hr => ⟨?_, ?_⟩, fun C h2 hr => ⟨?_, ?_⟩⟩
  · simp [getGlobalConfig, h0]
  · have g0 : configNum args ≠ 0 := by omega
    have g1 : configNum args ≠ 1 := by omega
    have g2 : configNum args ≠ 2 := by omega
    simp [getGlobalConfig, g0, g1, g2]
  · simp [getGlobalConfig, h1, hr]
  · simp [getConfig, h1]
  · simp [getGlobalConfig, h2, hr]
  · simp [getConfig, h2]

/-- c3_witness instantiates `c3_resolution_no_override` at a concrete
invocation with two trailing config tokens. -/
theorem c3_witness :
    getGlobalConfig ""
        (fun n => if n = "g.config" then Except.ok sampleConfig else Except.error "e")
        ["shellfish", "id", "g.config", "m.config"] =
      Except.ok ("g.config", sampleConfig) ∧
    getConfig "" ["shellfish", "id", "g.config", "m.config"] = ("m.config", true) :=
  (c3_resolution_no_override ["shellfish", "id", "g.config", "m.config"]
      (fun n => if n = "g.config" then Except.ok sampleConfig else Except.error "e")).2.2.2
    sampleConfig (by decide) (by rfl)

/-- C6: with the environment override set, more than one trailing config
token is an ambiguity error; with zero the override names the global
configuration and no mode config is used; with exactly one the override still
names the global configuration and the positional file is the mode config. -/
theorem c6_resolution_with_override (env : String)
    (read : String → Except String GlobalConfig) (args : List String)
    (henv : env ≠ "") :
    (2 ≤ configNum args →
      getGlobalConfig env read args =
        Except.error ("$SHELLFISH_GLOBAL_CONFIG has been set, so you may only " ++
          "pass a single config file as a parameter.")) ∧
    (∀ C : GlobalConfig, configNum args = 0 → read env = Except.ok C →
      getGlobalConfig env read args = Except.ok (env, C) ∧
        getConfig env args = ("", false)) ∧
    (∀ C : GlobalConfig, configNum args = 1 → read env = Except.ok C →
      getGlobalConfig env read args = Except.ok (env, C) ∧
        getConfig env args = (argAt args (args.length - 1), true)) := by
  refine ⟨fun h2 => ?_, fun C h0 hr => ⟨?_, ?_⟩, fun C h1 hr => ⟨?_, ?_⟩⟩
  · simp [getGlobalConfig, henv]
    omega
  · simp [getGlobalConfig, henv, h0, hr]
  · simp [getConfig, henv, h0]
  · simp [getGlobalConfig, henv, h1, hr]
  · simp [getConfig, henv, h1]

/-- c6_witness instantiates `c6_resolution_with_override` at a concrete
invocation: override set, one positional config token. -/
theorem c6_witness :
    getGlobalConfig "global.cfg"
        (fun n => if n = "global.cfg" then Except.ok sampleConfig else Except.error "e")
        ["shellfish", "id", "m.config"] =
      Except.ok ("global.cfg", sampleConfig) ∧
    getConfig "global.cfg" ["shellfish", "id", "m.config"] = ("m.config", true) :=
  (c6_resolution_with_override "global.cfg"
      (fun n => if n = "global.cfg" then Except.ok sampleConfig else Except.error "e")
      ["shellfish", "id", "m.config"] (by decide)).2.2
    sampleConfig (by decide) (by rfl)

/-- C1: the source's `getFlags` slice `args[1 : len(args)-1-configNum(args)]`
is off by one at both ends of the flag run: on the invocation
`shellfish id --IDs 5 a.config` it hands the mode back `["id", "--IDs"]`
(the mode name is included, the flag token `"5"` immediately before the
trailing configuration-file run is dropped) instead of the flag sub-list
`["--IDs", "5"]` strictly between the mode name and the config run. -/
theorem c1_getFlags_off_by_one :
    getFlags ["shellfish", "id", "--IDs", "5", "a.config"] = ["id", "--IDs"] ∧
    getFlags ["shellfish", "id", "--IDs", "5", "a.config"] ≠ ["--IDs", "5"] := by
  decide

/-- zipAllSelf: the element-wise comparison in the slice-equality helpers is
reflexive. -/
theorem zipAllSelf {α : Type} [BEq α] [LawfulBEq α] (xs : List α) :
    ((xs.zip xs).all fun p => p.1 == p.2) = true := by
  induction xs with
  | nil => rfl
  | cons x xs ih => simpa [List.zip_cons_cons, List.all_cons] using ih

/-- int64sEqual_refl: `int64sEqual` is reflexive. -/
theorem int64sEqual_refl (xs : List Int) : int64sEqual xs xs = true := by
  simp [int64sEqual, zipAllSelf]

/-- stringsEqual_refl: `stringsEqual` is reflexive. -/
theorem stringsEqual_refl (xs : List String) : stringsEqual xs xs = true := by
  simp [stringsEqual, zipAllSelf]

/-- configEqual_refl: `configEqual` is reflexive. -/
theorem configEqual_refl (c : GlobalConfig) : configEqual c c = true := by
  simp [configEqual, int64sEqual_refl, stringsEqual_refl]

/-- configEqual_haloType: configurations that compare equal agree on the halo
backend type (one conjunct of the comparison). -/
theorem configEqual_haloType (m c : GlobalConfig) (h : configEqual m c = true) :
    c.HaloType = m.HaloType := by
  simp only [configEqual, Bool.and_eq_true, beq_iff_eq] at h
  tauto

/-- configEqual_threads_only: two configurations differing only in the
runtime-only `Threads` field compare equal. -/
theorem configEqual_threads_only (c : GlobalConfig) (t : Int) :
    configEqual { c with Threads := t } c = true := by
  simp [configEqual, int64sEqual_refl, stringsEqual_refl]

/-- C4 (amended is not needed; this is the claim as stated): once the
memoization snapshot parses to `C`, validating with a config file that parses
to `C2` with a different (cache-relevant) halo backend type fails with the
consistency error naming both files, while validating with a `C2` that
differs from `C` only in the (non-cache-relevant) `Threads` field succeeds
and leaves the file system untouched. -/
theorem c4_memo_guard (parse : String → Except String GlobalConfig) (fs : FS)
    (d f2 c1 c2 : String) (C C2 : GlobalConfig)
    (hm : fs (pathJoin d "memo.config") = some c1)
    (hp1 : parse c1 = Except.ok C)
    (hf : fs f2 = some c2)
    (hp2 : parse c2 = Except.ok C2) :
    (C2.HaloType ≠ C.HaloType →
      checkMemoDir parse fs d f2 =
        Except.error (memoMismatchMsg f2 d (pathJoin d "memo.config"))) ∧
    (∀ t : Int, C2 = { C with Threads := t } →
      checkMemoDir parse fs d f2 = Except.ok fs) := by
  constructor
  · intro hne
    have hfalse : configEqual C2 C = false := by
      cases h : configEqual C2 C with
      | false => rfl
      | true => exact absurd (configEqual_haloType C2 C h) (Ne.symm hne)
    simp [checkMemoDir, hm, readConfigFS, hf, hp1, hp2, hfalse]
  · intro t ht
    subst ht
    simp [checkMemoDir, hm, readConfigFS, hf, hp1, hp2, configEqual_threads_only]

/-- c4_witness instantiates `c4_memo_guard` on the seeded file system: a halo
backend change is rejected with the error naming both files, a thread-count
change is accepted. -/
theorem c4_witness :
    checkMemoDir parseW fsSeeded "md" "b.config" =
      Except.error (memoMismatchMsg "b.config" "md" "md/memo.config") ∧
    checkMemoDir parseW fsSeeded "md" "t.config" = Except.ok fsSeeded :=
  ⟨(c4_memo_guard parseW fsSeeded "md" "b.config" "c0" "cH" sampleConfig
      cfgOtherHalo rfl rfl rfl rfl).1 (by decide),
   (c4_memo_guard parseW fsSeeded "md" "t.config" "c0" "cT" sampleConfig
      cfgOtherThreads rfl rfl rfl rfl).2 8 rfl⟩

/-- C5: seeding an empty memoization directory copies the config file in as
the snapshot and succeeds, and immediately re-validating with the same
configuration succeeds returning the file system unchanged (no mutation on
the second call). -/
theorem c5_memo_idempotent (parse : String → Except String GlobalConfig)
    (fs : FS) (d f c : String) (C : GlobalConfig)
    (hm : fs (pathJoin d "memo.config") = none)
    (hf : fs f = some c)
    (hp : parse c = Except.ok C) :
    checkMemoDir parse fs d f =
      Except.ok (updateFS fs (pathJoin d "memo.config") c) ∧
    checkMemoDir parse (updateFS fs (pathJoin d "memo.config") c) d f =
      Except.ok (updateFS fs (pathJoin d "memo.config") c) := by
  constructor
  · simp [checkMemoDir, hm, copyFile, hf]
  · have hmemo : updateFS fs (pathJoin d "memo.config") c
        (pathJoin d "memo.config") = some c := by
      simp [updateFS]
    have hfile : updateFS fs (pathJoin d "memo.config") c f = some c := by
      by_cases hfp : f = pathJoin d "memo.config" <;> simp [updateFS, hfp, hf]
    simp [checkMemoDir, hmemo, readConfigFS, hfile, hp, configEqual_refl]

/-- c5_witness instantiates `c5_memo_idempotent` on a fresh memoization
directory with a concrete config file. -/
theorem c5_witness :
    checkMemoDir parseW fsFresh "md" "g.config" =
      Except.ok (updateFS fsFresh "md/memo.config" "c0") ∧
    checkMemoDir parseW (updateFS fsFresh "md/memo.config" "c0") "md" "g.config" =
      Except.ok (updateFS fsFresh "md/memo.config" "c0") :=
  c5_memo_idempotent parseW fsFresh "md" "g.config" "c0" sampleConfig rfl rfl rfl

/-- C7 counterexample: the comparison used by the memoization guard does
depend on the memoization directory field — two configurations agreeing on
every other compared field but differing in `MemoDir` compare unequal. -/
theorem c7_counterexample :
    configEqual sampleConfig { sampleConfig with MemoDir := "other" } = false ∧
    sampleConfig.MemoDir ≠ "other" := by
  decide

/-- C7 amended: the comparison subset does include the memoization directory
field; starting from any configuration and changing only `MemoDir`, the two
configurations compare equal exactly when the new directory equals the old
one. -/
theorem c7_memoDir_compared (c : GlobalConfig) (s : String) :
    configEqual c { c with MemoDir := s } = (s == c.MemoDir) := by
  simp [configEqual, int64sEqual_refl, stringsEqual_refl]

/-- C2 counterexample: with a global configuration whose snapshot backend
type is unrecognized ("bogus"), backend initialization does not fail with a
configuration error and exit status 1 — `initCatalogs` falls off its switch
into `panic("Impossible.")` and the invocation terminates panicking, not
with `os.Exit(1)`. -/
theorem c2_counterexample :
    (mainRun c2World ["shellfish", "id"]).term = Termination.panicked "Impossible." ∧
    (mainRun c2World ["shellfish", "id"]).term ≠ Termination.exited 1 := by
  decide

/-- C2 amended: in the backend initializer only the explicitly disabled
("nil") values produce the fatal configuration error naming the offending
mode (which `main` then reports before exiting 1; see C8): a `nil` halo type
for a mode outside the {shell, stats, prof} exclusion set, and a `nil` tree
type when the halo type is neither `nil` nor `Text`.  An unrecognized
snapshot backend type, and an unrecognized halo backend type combined with a
non-`nil` tree type, instead make the initializer panic. -/
theorem c2_backend_validation (o : BackendOracle) (g : GlobalConfig)
    (mode : String) :
    (¬ (mode = "shell" ∨ mode = "stats" ∨ mode = "prof") → g.HaloType = "nil" →
      initHalos o mode g = GoOutcome.ret (Except.error
        ("You may not use nil as a HaloType for the mode \x27" ++ mode ++ ".\x27\n"))) ∧
    (¬ (mode = "shell" ∨ mode = "stats" ∨ mode = "prof") → g.HaloType ≠ "nil" →
      g.HaloType ≠ "Text" → g.TreeType = "nil" →
      initHalos o mode g = GoOutcome.ret (Except.error
        ("You may not use nil as a TreeType for the mode \x27" ++ mode ++ ".\x27\n"))) ∧
    (¬ (mode = "shell" ∨ mode = "stats" ∨ mode = "prof") → g.HaloType ≠ "nil" →
      g.HaloType ≠ "Text" → g.TreeType ≠ "nil" →
      initHalos o mode g = GoOutcome.panicked "Impossible") ∧
    (g.SnapshotType ≠ "gotetra" → g.SnapshotType ≠ "LGadget-2" →
      g.SnapshotType ≠ "ARTIO" →
      initCatalogs o g = GoOutcome.panicked "Impossible.") := by
  refine ⟨fun hm hn => ?_, fun hm h1 h2 h3 => ?_, fun hm h1 h2 h3 => ?_,
    fun s1 s2 s3 => ?_⟩
  · simp [initHalos, hm, hn]
  · simp [initHalos, hm, h1, h2, h3]
  · simp [initHalos, hm, h1, h2, h3]
  · simp [initCatalogs, s1, s2, s3]

/-- c2_amended_witness instantiates `c2_backend_validation`: the disabled
halo type errors naming the mode `id`; the unrecognized snapshot type
panics. -/
theorem c2_amended_witness :
    initHalos trivialBackends "id" cfgNilHalo = GoOutcome.ret (Except.error
      ("You may not use nil as a HaloType for the mode \x27" ++ "id" ++ ".\x27\n")) ∧
    initCatalogs trivialBackends cfgBadSnap = GoOutcome.panicked "Impossible." :=
  ⟨(c2_backend_validation trivialBackends cfgNilHalo "id").1 (by decide) rfl,
   (c2_backend_validation trivialBackends cfgBadSnap "id").2.2.2
     (by decide) (by decide) (by decide)⟩

/-- C10: the tree-type compatibility check that follows the `Text`
halo-backend activation in `initHalos` is dead code: whenever the halo type
is `Text`, the value of `initHalos` is already fully determined before that
check — it is the exclusion-set early return or the Text-backend activation
result, for every mode and oracle, and it does not depend on the tree type
at all (so the check's error is never produced). -/
theorem c10_dead_tree_check (o : BackendOracle) (mode : String)
    (g : GlobalConfig) (h : g.HaloType = "Text") (t : String) :
    initHalos o mode g =
      (if mode = "shell" ∨ mode = "stats" ∨ mode = "prof" then
        GoOutcome.ret (Except.ok ())
      else GoOutcome.ret (o.initTextHalo g.HaloInfo)) ∧
    initHalos o mode { g with TreeType := t } = initHalos o mode g := by
  constructor
  · by_cases hm : mode = "shell" ∨ mode = "stats" ∨ mode = "prof" <;>
      simp [initHalos, hm, h]
  · by_cases hm : mode = "shell" ∨ mode = "stats" ∨ mode = "prof" <;>
      simp [initHalos, hm, h]

/-- c10_witness instantiates `c10_dead_tree_check` for mode `id` and
`sampleConfig` (halo type `Text`): the result is the Text activation result,
and setting the tree type to `nil` — which the dead check would reject —
changes nothing. -/
theorem c10_witness :
    initHalos trivialBackends "id" sampleConfig = GoOutcome.ret (Except.ok ()) ∧
    initHalos trivialBackends "id" { sampleConfig with TreeType := "nil" } =
      initHalos trivialBackends "id" sampleConfig :=
  ⟨(c10_dead_tree_check trivialBackends "id" sampleConfig rfl "nil").1,
   (c10_dead_tree_check trivialBackends "id" sampleConfig rfl "nil").2⟩

/-- mainDispatch_terminating: every exit-1 outcome of the dispatch tail goes
through `errRun` and hence prints the terminating notice. -/
theorem mainDispatch_terminating (w : World) (args : List String) (a1 : String)
    (lines : List String) :
    (mainDispatch w args a1 lines).term = Termination.exited 1 →
    "Shellfish terminating." ∈ (mainDispatch w args a1 lines).out := by
  unfold mainDispatch
  repeat' split
  all_goals simp [errRun]

/-- C8 counterexample: invoked with no mode at all, the process exits with
status 1 after only the stderr usage message — no "Shellfish terminating."
notice is printed on this fatal-error path. -/
theorem c8_counterexample :
    (mainRun trivialWorld ["shellfish"]).term = Termination.exited 1 ∧
    "Shellfish terminating." ∉ (mainRun trivialWorld ["shellfish"]).out := by
  decide

/-- C8 amended: on every fatal-error path that exits with status 1 other
than the missing-mode usage complaint and the failure-marker re-emission
short circuit — i.e. on the unknown-mode, stdin-read, configuration,
mode-config, memoization, backend and stage failure paths — the process
prints the final "Shellfish terminating." notice before exiting. -/
theorem c8_terminating_notice (w : World) (args : List String)
    (hlen : 2 ≤ args.length)
    (hmark : ¬ markerShortCircuit w args)
    (hexit : (mainRun w args).term = Termination.exited 1) :
    "Shellfish terminating." ∈ (mainRun w args).out := by
  unfold mainRun at hexit ⊢
  rw [if_neg (by omega)] at hexit ⊢
  by_cases h1 : argAt args 1 = "help"
  · simp [h1] at hexit
  rw [if_neg h1] at hexit ⊢
  by_cases h2 : argAt args 1 = "version"
  · simp [h2] at hexit
  rw [if_neg h2] at hexit ⊢
  by_cases h3 : argAt args 1 = "hello"
  · simp [h3] at hexit
  rw [if_neg h3] at hexit ⊢
  by_cases h4 : argAt args 1 ∉ modeNamesKeys
  · rw [if_pos h4]
    simp
  rw [if_neg h4] at hexit ⊢
  unfold mainWithMode at hexit ⊢
  by_cases hp : argAt args 1 ∈ pipeModes
  · rw [if_pos hp] at hexit ⊢
    rcases hsr : w.stdinRaw with e | raw
    · simp
    · rw [hsr] at hexit
      by_cases hz : (stdinLines raw).length = 0
      · simp [hz] at hexit
      by_cases hone : (stdinLines raw).length = 1 ∧
          9 ≤ ((stdinLines raw).getD 0 "").length ∧
          ((stdinLines raw).getD 0 "").data.take 9 = "Shellfish".data
      · exact absurd ⟨hp, raw, hsr, hone.1, hone.2.1, hone.2.2⟩ hmark
      · have hexit2 : (if (stdinLines raw).length = 0 then
              ({ out := [], errOut := [], term := Termination.exited 0 } : MainResult)
            else if (stdinLines raw).length = 1 ∧
                9 ≤ ((stdinLines raw).getD 0 "").length ∧
                ((stdinLines raw).getD 0 "").data.take 9 = "Shellfish".data then
              { out := [(stdinLines raw).getD 0 ""], errOut := [],
                term := Termination.exited 1 }
            else mainDispatch w args (argAt args 1) (stdinLines raw)).term =
            Termination.exited 1 := hexit
        rw [if_neg hz, if_neg hone] at hexit2
        show "Shellfish terminating." ∈ (if (stdinLines raw).length = 0 then
              ({ out := [], errOut := [], term := Termination.exited 0 } : MainResult)
            else if (stdinLines raw).length = 1 ∧
                9 ≤ ((stdinLines raw).getD 0 "").length ∧
                ((stdinLines raw).getD 0 "").data.take 9 = "Shellfish".data then
              { out := [(stdinLines raw).getD 0 ""], errOut := [],
                term := Termination.exited 1 }
            else mainDispatch w args (argAt args 1) (stdinLines raw)).out
        rw [if_neg hz, if_neg hone]
        exact mainDispatch_terminating w args (argAt args 1) (stdinLines raw) hexit2
  · rw [if_neg hp] at hexit ⊢
    exact mainDispatch_terminating w args (argAt args 1) [] hexit

/-- c8_witness instantiates `c8_terminating_notice` on the unknown-mode
path. -/
theorem c8_witness :
    (mainRun trivialWorld ["shellfish", "badmode"]).term = Termination.exited 1 ∧
    "Shellfish terminating." ∈ (mainRun trivialWorld ["shellfish", "badmode"]).out :=
  ⟨by decide,
   c8_terminating_notice trivialWorld ["shellfish", "badmode"] (by decide)
     (fun h => absurd h.1 (by decide)) (by decide)⟩

/-- C9: for every pipe-input mode, when stdin is exactly one line whose
first nine bytes are the failure marker "Shellfish", `main` re-emits that
line verbatim as the invocation's only output and exits with status 1 — and
this holds for every world, in particular for every `run` oracle, so the
mode's run operation is never invoked. -/
theorem c9_marker_short_circuit (w : World) (args : List String)
    (raw line : String)
    (hmode : argAt args 1 ∈ pipeModes)
    (hsr : w.stdinRaw = Except.ok raw)
    (hlines : stdinLines raw = [line])
    (hlen9 : 9 ≤ line.length)
    (hpre : line.data.take 9 = "Shellfish".data) :
    mainRun w args = { out := [line], errOut := [], term := Termination.exited 1 } := by
  have hlen : 2 ≤ args.length := by
    rcases args with _ | ⟨a, rest⟩
    · exact absurd hmode (by simp [argAt, pipeModes])
    · rcases rest with _ | ⟨b, t⟩
      · exact absurd hmode (by simp [argAt, pipeModes])
      · simp only [List.length_cons]
        omega
  have hne : ∀ s ∈ pipeModes, s ≠ "help" ∧ s ≠ "version" ∧ s ≠ "hello" ∧
      s ∈ modeNamesKeys := by decide
  obtain ⟨n1, n2, n3, n4⟩ := hne _ hmode
  unfold mainRun
  rw [if_neg (by omega), if_neg n1, if_neg n2, if_neg n3, if_neg (not_not_intro n4)]
  unfold mainWithMode
  rw [if_pos hmode, hsr]
  simp [hlines, hlen9, hpre]

/-- c9_witness instantiates `c9_marker_short_circuit` with the `coord` mode
and the stdin line "Shellfish failed". -/
theorem c9_witness :
    mainRun c9World ["shellfish", "coord"] =
      { out := ["Shellfish failed"], errOut := [], term := Termination.exited 1 } :=
  c9_marker_short_circuit c9World ["shellfish", "coord"] "Shellfish failed\n"
    "Shellfish failed" (by decide) rfl (by decide) (by decide) (by decide)

end Shellfish
